import Mathlib

/- Verification of the Aurum lightweight-cycling-dashboard core.

   Shallow embedding of:
   - scripts/cycle-manager.js (the variant with pause support: isPaused,
     pauseForViewLoad, onViewReady, restartTimer, lines 334-589 of the file),
   - scripts/data-fetcher.js (fetchLeaderboard, processPlayerData,
     isValidPlayer, extraction and sanitization, handleApiError),
   - scripts/app.js (start, loadRankingView),
   - scripts/ranking-renderer.js (renderRanking, validateAndSanitizePlayers),
   - the cycling watchdog, which is only excerpted in the repository
     documentation and is therefore modelled from the spec.

   Timers are modelled by the period they are armed with (an Option Nat,
   none meaning the timer is not armed), asynchronous callbacks by explicit
   outcome parameters, and the network by an oracle of attempt outcomes. -/

/-- A view descriptor as configured in scripts/app.js: an id and a type,
where the type string is "looker" for the embedded document view and
"ranking" for a data-backed leaderboard view. -/
structure View where
  id : String
  type : String
  deriving DecidableEq, Repr

instance : Inhabited View := ⟨{ id := "", type := "" }⟩

/-- Mutable state owned by CycleManager (cycle-manager.js constructor,
lines 337-348).  intervalId models the interval timer as the period it is
armed with (none when cleared); viewReadyTimeout models the safety timer
the same way. -/
structure CMState where
  views : List View
  intervalMs : Nat
  currentIndex : Nat
  intervalId : Option Nat
  isRunning : Bool
  isPaused : Bool
  viewReadyTimeout : Option Nat
  maxViewLoadTime : Nat
  deriving DecidableEq, Repr

/-- The constructor state of CycleManager: index 0, no timers armed, not
running, not paused, maxViewLoadTime fixed at 20000 ms. -/
def CMState.init (views : List View) (intervalMs : Nat) : CMState :=
  { views := views, intervalMs := intervalMs, currentIndex := 0,
    intervalId := none, isRunning := false, isPaused := false,
    viewReadyTimeout := none, maxViewLoadTime := 20000 }

namespace CycleManager

/-- cycle-manager.js restartTimer (lines 486-506): clear the interval timer
if armed, then arm it for intervalMs when running. -/
def restartTimer (s : CMState) : CMState :=
  if s.isRunning then { s with intervalId := some s.intervalMs }
  else { s with intervalId := none }

/-- cycle-manager.js pauseForViewLoad (lines 440-467): for a looker view,
set isPaused, stop the interval timer and arm the safety timeout for
maxViewLoadTime; for any other view do nothing (that branch only logs and
schedules a callback with an empty body). -/
def pauseForViewLoad (s : CMState) (viewConfig : View) : CMState :=
  if viewConfig.type = "looker" then
    { s with isPaused := true, intervalId := none,
             viewReadyTimeout := some s.maxViewLoadTime }
  else s

/-- cycle-manager.js onViewReady (lines 470-483): clear the safety timeout
if armed; if paused, unpause and restart the interval timer. -/
def onViewReady (s : CMState) : CMState :=
  let s1 := { s with viewReadyTimeout := none }
  if s1.isPaused then restartTimer { s1 with isPaused := false } else s1

/-- Outcome of the onViewChange callback invoked by nextView: absent, a
callback whose promise resolves, a callback that throws synchronously (the
catch block calls onViewReady at once), or a callback whose promise rejects
(its rejection handler calls onViewReady after nextView returns; that
handler is modelled as a separate onViewReady application). -/
inductive CbOutcome where
  | absent
  | ok
  | syncThrow
  | asyncReject
  deriving DecidableEq, Repr

/-- cycle-manager.js nextView (lines 386-437): no-op unless running and not
paused; otherwise step currentIndex to (currentIndex + 1) mod views.length,
pause for the newly selected view when its kind requires loading, then
invoke the callback with the error handling described on CbOutcome.  The
appState.setCurrentViewIndex mirror call touches only external app state
and is not part of this machine state. -/
def nextView (s : CMState) (cb : CbOutcome) : CMState :=
  if s.isRunning = false then s
  else if s.isPaused = true then s
  else
    let idx := (s.currentIndex + 1) % s.views.length
    let v := s.views.getD idx default
    let s2 := pauseForViewLoad { s with currentIndex := idx } v
    match cb with
    | .syncThrow => onViewReady s2
    | _ => s2

/-- cycle-manager.js start (lines 350-364): no-op when already running,
otherwise set isRunning, clear isPaused and arm the interval timer. -/
def start (s : CMState) : CMState :=
  if s.isRunning then s
  else restartTimer { s with isRunning := true, isPaused := false }

/-- cycle-manager.js stop (lines 366-384): no-op when not running,
otherwise clear isRunning, isPaused and both timers. -/
def stop (s : CMState) : CMState :=
  if s.isRunning = false then s
  else { s with isRunning := false, isPaused := false,
                intervalId := none, viewReadyTimeout := none }

/-- One timer-driven advance followed by the readiness signal: either the
strategy calls onReady or the safety timeout elapses, and both run
onViewReady before the next interval tick can fire. -/
def advanceAck (s : CMState) : CMState :=
  onViewReady (nextView s CbOutcome.ok)

/-- Events that can reach the cycle machine: the public API calls, the
readiness callback, and the safety timeout firing (which can only act when
the safety timer is armed, and runs onViewReady). -/
inductive Event where
  | start
  | stop
  | next (cb : CbOutcome)
  | ready
  | safetyFire

/-- Apply one event to the machine state. -/
def applyEvent (s : CMState) : Event → CMState
  | .start => start s
  | .stop => stop s
  | .next cb => nextView s cb
  | .ready => onViewReady s
  | .safetyFire => if s.viewReadyTimeout.isSome then onViewReady s else s

/-- States reachable from a constructor state under any event sequence. -/
inductive Reachable : CMState → Prop where
  | init (views : List View) (intervalMs : Nat) :
      Reachable (CMState.init views intervalMs)
  | step (s : CMState) (e : Event) : Reachable s → Reachable (applyEvent s e)

end CycleManager

/-- app.js start (lines 291-308): when initialized, immediately activate
the view at the current position (onViewChange on the initial view) and
then start the cycle manager; when not initialized, log and return.  The
result is the view activated (none when nothing was activated) paired with
the machine state afterwards. -/
def appStart (initialized : Bool) (s : CMState) : Option View × CMState :=
  if initialized then
    (some (s.views.getD s.currentIndex default), CycleManager.start s)
  else (none, s)

/-- Modelled from the spec: the cycling watchdog (startCyclingWatchdog and
recoverStuckCycling in app.js) is missing from src/, appearing only as an
excerpt in the cycling fix summary document.  Spec 4.5 sample state:
lastObservedPosition (the excerpt initializes it to -1, hence an Int) and
consecutiveStuckCount. -/
structure WatchdogState where
  lastObservedPosition : Int
  consecutiveStuckCount : Nat
  deriving DecidableEq, Repr

/-- The stuck threshold: spec 4.5 and the excerpt both use 3. -/
def watchdogThreshold : Nat := 3

/-- Modelled from the spec: one watchdog tick (spec 4.5).  If running and
the position equals lastObservedPosition, increment consecutiveStuckCount;
when the count reaches the threshold, force recovery by re-arming the cycle
machine interval timer unconditionally (bypassing paused) and resetting the
count; otherwise reset both sample fields to the current values. -/
def watchdogTick (m : CMState) (w : WatchdogState) : CMState × WatchdogState :=
  if m.isRunning = true ∧ (m.currentIndex : Int) = w.lastObservedPosition then
    let c := w.consecutiveStuckCount + 1
    if watchdogThreshold ≤ c then
      ({ m with intervalId := some m.intervalMs },
       { w with consecutiveStuckCount := 0 })
    else (m, { w with consecutiveStuckCount := c })
  else
    (m, { lastObservedPosition := (m.currentIndex : Int),
          consecutiveStuckCount := 0 })

/-- Prefix test on character lists (helper for the substring check). -/
def hasPrefixCL : List Char → List Char → Bool
  | [], _ => true
  | _ :: _, [] => false
  | a :: as, b :: bs => a == b && hasPrefixCL as bs

/-- Substring test on character lists (helper for the substring check). -/
def containsCL (needle : List Char) : List Char → Bool
  | [] => needle.isEmpty
  | c :: rest => hasPrefixCL needle (c :: rest) || containsCL needle rest

/-- JS String.prototype.includes, as used by handleApiError on error
messages. -/
def includes (s sub : String) : Bool := containsCL sub.toList s.toList

/-- The classified error record built by data-fetcher.js handleApiError:
type, message, recoverable flag and suggested retry delay in ms (null
modelled as none). -/
structure ErrorInfo where
  type : String
  message : String
  recoverable : Bool
  retryAfter : Option Nat
  deriving DecidableEq, Repr

/-- data-fetcher.js handleApiError (lines 236-313): the deterministic
classification chain over the error message, ending in the unknown
fallback. -/
def handleApiError (message : String) : ErrorInfo :=
  if includes message "timeout" || includes message "Request timeout" then
    { type := "timeout",
      message := "Request timed out. Please check your connection.",
      recoverable := true, retryAfter := some 5000 }
  else if includes message "Failed to fetch" || includes message "NetworkError" then
    { type := "network",
      message := "Network error. Please check your connection.",
      recoverable := true, retryAfter := some 3000 }
  else if includes message "ERR_INTERNET_DISCONNECTED" || includes message "offline" then
    { type := "offline",
      message := "No internet connection detected.",
      recoverable := true, retryAfter := some 10000 }
  else if includes message "404" then
    { type := "not_found",
      message := "Leaderboard not found.",
      recoverable := false, retryAfter := none }
  else if includes message "401" || includes message "403" then
    { type := "auth",
      message := "Authentication required or access denied.",
      recoverable := false, retryAfter := none }
  else if includes message "429" then
    { type := "rate_limit",
      message := "Too many requests. Please wait.",
      recoverable := true, retryAfter := some 30000 }
  else if includes message "500" || includes message "502" || includes message "503" then
    { type := "server_error",
      message := "Server error. Please try again later.",
      recoverable := true, retryAfter := some 15000 }
  else if includes message "JSON" || includes message "parse" then
    { type := "parse_error",
      message := "Invalid data format received.",
      recoverable := true, retryAfter := some 5000 }
  else
    { type := "unknown",
      message := "An unexpected error occurred.",
      recoverable := true, retryAfter := some 5000 }

/-- A message is recognized when any branch of the handleApiError chain
other than the unknown fallback matches it. -/
def recognized (message : String) : Bool :=
  includes message "timeout" || includes message "Request timeout" ||
  includes message "Failed to fetch" || includes message "NetworkError" ||
  includes message "ERR_INTERNET_DISCONNECTED" || includes message "offline" ||
  includes message "404" || includes message "401" || includes message "403" ||
  includes message "429" ||
  includes message "500" || includes message "502" || includes message "503" ||
  includes message "JSON" || includes message "parse"

/-- A JS number: a finite value (modelled as a rational) or one of the
non-finite values that isFinite and isNaN distinguish. -/
inductive JSNum where
  | fin (q : ℚ)
  | nan
  | posInf
  | negInf
  deriving DecidableEq, Repr

/-- A JS field value as the payload-processing code distinguishes them:
undefined (also covering absent and null fields), a number, or a string. -/
inductive JSVal where
  | undef
  | num (n : JSNum)
  | str (s : String)
  deriving DecidableEq, Repr

/-- JS truthiness of a number: 0 and NaN are falsy. -/
def JSNum.truthy : JSNum → Bool
  | .fin q => decide (q ≠ 0)
  | .nan => false
  | .posInf => true
  | .negInf => true

/-- JS truthiness of a value: undefined and the empty string are falsy. -/
def JSVal.truthy : JSVal → Bool
  | .undef => false
  | .num n => n.truthy
  | .str s => decide (s ≠ "")

/-- JS typeof v === "number". -/
def JSVal.isNumber : JSVal → Bool
  | .num _ => true
  | _ => false

/-- The JS short-circuit a or-or b: a when truthy, else b. -/
def jsOr (a b : JSVal) : JSVal := if a.truthy then a else b

/-- A raw payload entry with every field alias that the duck-typed
extraction in data-fetcher.js and ranking-renderer.js reads; absent fields
are undef.  A null array entry behaves like the all-undef entry: both fail
validation. -/
structure Player where
  _id : JSVal
  player : JSVal
  playerId : JSVal
  id : JSVal
  userId : JSVal
  user_id : JSVal
  principalId : JSVal
  principal_id : JSVal
  total : JSVal
  score : JSVal
  points : JSVal
  value : JSVal
  totalScore : JSVal
  total_score : JSVal
  currentScore : JSVal
  current_score : JSVal
  name : JSVal
  playerName : JSVal
  username : JSVal
  displayName : JSVal
  user_name : JSVal
  principalName : JSVal
  principal_name : JSVal
  title : JSVal
  label : JSVal
  position : JSVal
  deriving DecidableEq, Repr

/-- The entry with every field absent. -/
def Player.empty : Player :=
  { _id := .undef, player := .undef, playerId := .undef, id := .undef,
    userId := .undef, user_id := .undef, principalId := .undef,
    principal_id := .undef, total := .undef, score := .undef,
    points := .undef, value := .undef, totalScore := .undef,
    total_score := .undef, currentScore := .undef, current_score := .undef,
    name := .undef, playerName := .undef, username := .undef,
    displayName := .undef, user_name := .undef, principalName := .undef,
    principal_name := .undef, title := .undef, label := .undef,
    position := .undef }

/-- The identifier alias chain shared by isValidPlayer, extractPlayerId and
the renderer: _id, player, playerId, id, userId, user_id, principalId,
principal_id, combined with JS or-or. -/
def idChain (p : Player) : JSVal :=
  jsOr p._id (jsOr p.player (jsOr p.playerId (jsOr p.id
    (jsOr p.userId (jsOr p.user_id (jsOr p.principalId p.principal_id))))))

/-- The score alias chain shared by isValidPlayer, extractScore and the
renderer: total, score, points, value, totalScore, total_score,
currentScore, current_score, combined with JS or-or. -/
def scoreChain (p : Player) : JSVal :=
  jsOr p.total (jsOr p.score (jsOr p.points (jsOr p.value
    (jsOr p.totalScore (jsOr p.total_score (jsOr p.currentScore p.current_score))))))

/-- Number.MAX_SAFE_INTEGER, the upper clamp bound for scores. -/
def maxSafeInteger : ℚ := 9007199254740991

/-- JS word character, the regex class backslash-w: alphanumeric or
underscore. -/
def wordChar (c : Char) : Bool := c.isAlphanum || c = '_'

/-- JS whitespace as matched by the regex class backslash-s (space, tab,
newline, carriage return, vertical tab, form feed). -/
def spaceChar (c : Char) : Bool :=
  c = ' ' || c.toNat = 9 || c.toNat = 10 || c.toNat = 13 ||
  c.toNat = 11 || c.toNat = 12

/-- Characters removed first by sanitizeName: angle brackets, double quote,
single quote (code 39) and ampersand. -/
def htmlChar (c : Char) : Bool :=
  c = '<' || c = '>' || c = '"' || c.toNat = 39 || c = '&'

/-- Characters kept by the second sanitizeName filter: word characters,
whitespace, dash, underscore, dot. -/
def nameKeepChar (c : Char) : Bool :=
  wordChar c || spaceChar c || c = '-' || c = '_' || c = '.'

/-- Characters kept by sanitizePlayerId: word characters, dash, underscore,
dot. -/
def idKeepChar (c : Char) : Bool :=
  wordChar c || c = '-' || c = '_' || c = '.'

/-- Characters kept by the score string cleaner: digits, dot, minus. -/
def scoreKeepChar (c : Char) : Bool := c.isDigit || c = '.' || c = '-'

/-- Replace every whitespace run by a single space, as the sanitizeName
regex replacement does; the flag records whether the previous kept
character was part of a run. -/
def collapseSpacesAux : Bool → List Char → List Char
  | _, [] => []
  | prevSpace, c :: rest =>
    if spaceChar c then
      if prevSpace then collapseSpacesAux true rest
      else ' ' :: collapseSpacesAux true rest
    else c :: collapseSpacesAux false rest

/-- Whitespace-run collapsing starting outside a run. -/
def collapseSpaces (l : List Char) : List Char := collapseSpacesAux false l

/-- JS String.prototype.trim after space collapsing: drop leading and
trailing spaces. -/
def trimSpaces (l : List Char) : List Char :=
  ((l.dropWhile (fun c => c == ' ')).reverse.dropWhile (fun c => c == ' ')).reverse

/-- Digits of a decimal literal to a natural number. -/
def digitsToNat (ds : List Char) : Nat :=
  ds.foldl (fun a c => a * 10 + (c.toNat - 48)) 0

/-- JS parseFloat restricted to the character set the score cleaner leaves
(digits, dot, minus): an optional leading minus, then integer digits, then
an optional fraction; none models NaN.  Exponents cannot occur because the
cleaner removes the letter e, and literals large enough to overflow to
Infinity are not modelled. -/
def parseFloatQ (cs : List Char) : Option ℚ :=
  let (neg, cs1) :=
    match cs with
    | '-' :: rest => (true, rest)
    | _ => (false, cs)
  let intDigits := cs1.takeWhile Char.isDigit
  let rest1 := cs1.dropWhile Char.isDigit
  let fracDigits :=
    match rest1 with
    | '.' :: r => r.takeWhile Char.isDigit
    | _ => ([] : List Char)
  if intDigits.isEmpty && fracDigits.isEmpty then none
  else
    let mag : ℚ :=
      (digitsToNat intDigits : ℚ) +
        (digitsToNat fracDigits : ℚ) / ((10 : ℚ) ^ fracDigits.length)
    some (if neg then -mag else mag)

/-- Rendering of a JS number to a string, for String(playerId) on numeric
identifiers; integers print without a denominator.  The exact JS number
formatting is approximated for non-integral rationals, which no claim
depends on. -/
def jsNumToString (n : JSNum) : String :=
  match n with
  | .fin q => if q.den = 1 then toString q.num else toString q
  | .nan => "NaN"
  | .posInf => "Infinity"
  | .negInf => "-Infinity"

/-- JS String(v) on the modelled value kinds. -/
def jsToString : JSVal → String
  | .undef => "undefined"
  | .num n => jsNumToString n
  | .str s => s

/-- Stand-in for the fresh fallback identifier built from Date.now() and
Math.random(); its exact text is environment dependent and irrelevant to
the claims, only that it is non-empty. -/
def freshPlayerId : String := "player_fresh"

namespace DataFetcher

/-- data-fetcher.js isValidPlayer (lines 129-142): the entry is kept when
the identifier alias chain is truthy and the score alias chain evaluates to
a number (note the JS quirk: a zero score is falsy and falls through the
chain, so only a zero in the last alias, current_score, can satisfy the
typeof check). -/
def isValidPlayer (p : Player) : Bool :=
  (idChain p).truthy && (scoreChain p).isNumber

/-- data-fetcher.js sanitizeScore (lines 186-215): null and undefined to 0;
a number is clamped into [0, MAX_SAFE_INTEGER] with non-finite values to 0;
a string is cleaned to its numeric characters, parsed, and clamped, with a
failed parse to 0; anything else to 0. -/
def sanitizeScore (v : JSVal) : ℚ :=
  match v with
  | .undef => 0
  | .num (.fin q) => max 0 (min q maxSafeInteger)
  | .num .nan => 0
  | .num .posInf => 0
  | .num .negInf => 0
  | .str s =>
      match parseFloatQ (s.toList.filter scoreKeepChar) with
      | none => 0
      | some q => max 0 (min q maxSafeInteger)

/-- data-fetcher.js sanitizeName (lines 170-183): non-strings and the empty
string to "Unknown Player"; otherwise remove HTML characters, remove the
remaining special characters, collapse whitespace, trim, cut to 20
characters, and fall back to "Player" when that leaves nothing. -/
def sanitizeName (v : JSVal) : String :=
  match v with
  | .str s =>
      if s = "" then "Unknown Player"
      else
        let cs := s.toList.filter (fun c => !(htmlChar c))
        let cs := cs.filter nameKeepChar
        let cs := (trimSpaces (collapseSpaces cs)).take 20
        if cs.isEmpty then "Player" else String.mk cs
  | _ => "Unknown Player"

/-- data-fetcher.js sanitizePlayerId (lines 218-229): a falsy identifier
gets a fresh fallback; otherwise String(id) is filtered to word characters,
dash, underscore and dot, cut to 50 characters, with the fresh fallback
when that leaves nothing. -/
def sanitizePlayerId (v : JSVal) : String :=
  if v.truthy = false then freshPlayerId
  else
    let sanitized := String.mk ((jsToString v).toList.filter idKeepChar |>.take 50)
    if sanitized = "" then freshPlayerId else sanitized

/-- data-fetcher.js extractPlayerId (lines 144-149). -/
def extractPlayerId (p : Player) : String := sanitizePlayerId (idChain p)

/-- data-fetcher.js extractScore (lines 151-157): the score alias chain
with a final or-or 0, then sanitized. -/
def extractScore (p : Player) : ℚ :=
  sanitizeScore (jsOr (scoreChain p) (JSVal.num (.fin 0)))

/-- The name alias chain of data-fetcher.js extractPlayerName (lines
159-168), ending in the literal "Player". -/
def nameChain (p : Player) : JSVal :=
  jsOr p.name (jsOr p.playerName (jsOr p.username (jsOr p.displayName
    (jsOr p.user_name (jsOr p.principalName (jsOr p.principal_name
    (jsOr p.title (jsOr p.label (jsOr p.player (jsOr p.playerId
    (jsOr p.id (JSVal.str "Player"))))))))))))

/-- data-fetcher.js extractPlayerName (lines 159-168). -/
def extractPlayerName (p : Player) : String := sanitizeName (nameChain p)

end DataFetcher

/-- A normalized leaderboard entry as produced by processPlayerData. -/
structure ProcessedPlayer where
  playerId : String
  score : ℚ
  name : String
  position : Nat
  deriving DecidableEq, Repr

/-- Stable descending insertion by a score projection: the new element goes
after every earlier element whose score is at least as large.  This models
the stable JS sort with comparator (a, b) => b.score - a.score. -/
def insertScoreDesc (score : α → ℚ) (x : α) : List α → List α
  | [] => [x]
  | y :: ys => if score y < score x then x :: y :: ys else y :: insertScoreDesc score x ys

/-- Stable descending sort by a score projection. -/
def sortScoreDesc (score : α → ℚ) : List α → List α
  | [] => []
  | x :: xs => insertScoreDesc score x (sortScoreDesc score xs)

/-- The map-with-index assigning position := index + 1 after sorting. -/
def assignPositions : Nat → List ProcessedPlayer → List ProcessedPlayer
  | _, [] => []
  | i, p :: rest => { p with position := i + 1 } :: assignPositions (i + 1) rest

/-- The response shapes data-fetcher.js processPlayerData dispatches on: a
direct array, an object with a data, players, leaderboard or principals
array, or anything else (which yields the empty result). -/
inductive ApiResponse where
  | direct (players : List Player)
  | dataField (players : List Player)
  | playersField (players : List Player)
  | leaderboardField (players : List Player)
  | principalsField (players : List Player)
  | unexpected
  deriving DecidableEq, Repr

/-- The player array selected by the processPlayerData dispatch. -/
def responsePlayers : ApiResponse → Option (List Player)
  | .direct players => some players
  | .dataField players => some players
  | .playersField players => some players
  | .leaderboardField players => some players
  | .principalsField players => some players
  | .unexpected => none

/-- data-fetcher.js processPlayerData (lines 79-127): select the player
array, filter to valid entries, extract and sanitize the fields, sort by
score descending, keep the top 10, and assign positions 1..; an
unrecognized shape yields the empty list.  The surrounding try/catch cannot
fire in this model because no modelled step throws. -/
def processPlayerData (resp : ApiResponse) : List ProcessedPlayer :=
  match responsePlayers resp with
  | none => []
  | some players =>
      assignPositions 0
        ((sortScoreDesc (fun q => q.score)
            ((players.filter DataFetcher.isValidPlayer).map (fun p =>
              { playerId := DataFetcher.extractPlayerId p,
                score := DataFetcher.extractScore p,
                name := DataFetcher.extractPlayerName p,
                position := 0 }))).take 10)

/-- The outcome of one makeApiCall network attempt: a parsed response or a
thrown error with its message (HTTP error, timeout or network failure). -/
inductive AttemptOutcome where
  | ok (resp : ApiResponse)
  | err (msg : String)
  deriving DecidableEq, Repr

/-- The network world threaded through fetching: the oracle of upcoming
makeApiCall outcomes (oldest first), the count of network requests issued
(the remote data surface calls), and the count of fetchLeaderboard
invocations (the entries pushed onto callHistory). -/
structure FetchWorld where
  outcomes : List AttemptOutcome
  apiCalls : Nat
  fetchCalls : Nat
  deriving DecidableEq, Repr

/-- Issue one network request: consume the next oracle outcome (an
exhausted oracle behaves as a network failure) and count the call. -/
def takeCall (w : FetchWorld) : AttemptOutcome × FetchWorld :=
  match w.outcomes with
  | [] => (.err "Failed to fetch", { w with apiCalls := w.apiCalls + 1 })
  | o :: rest =>
      (o, { w with outcomes := rest, apiCalls := w.apiCalls + 1 })

/-- Result of fetchLeaderboard: processed players, or the message of the
aggregate failure thrown after the last attempt. -/
inductive FetchResult where
  | success (players : List ProcessedPlayer)
  | failure (msg : String)
  deriving DecidableEq, Repr

/-- The retry loop of data-fetcher.js fetchLeaderboard (lines 21-38) with
the given number of attempts remaining: each attempt issues a network call;
a success returns the processed data, the last failure is surfaced, and the
inter-attempt backoff delay has no observable effect in this model. -/
def fetchLoop : Nat → FetchWorld → FetchResult × FetchWorld
  | 0, w => (.failure "no attempts", w)
  | n + 1, w =>
      let (o, w1) := takeCall w
      match o with
      | .ok resp => (.success (processPlayerData resp), w1)
      | .err m => if n = 0 then (.failure m, w1) else fetchLoop n w1

/-- data-fetcher.js fetchLeaderboard (lines 11-39): record the call on
callHistory, then run up to maxRetries = 3 attempts.  No cache is consulted
at any point. -/
def fetchLeaderboard (w : FetchWorld) : FetchResult × FetchWorld :=
  fetchLoop 3 { w with fetchCalls := w.fetchCalls + 1 }

/-- What one loadRankingView activation leaves in the view container. -/
inductive RenderedView where
  | content (players : List ProcessedPlayer)
  | errorPlaceholder (info : ErrorInfo)
  | nothing
  deriving DecidableEq, Repr

/-- The retry loop of app.js loadRankingView (lines 574-632) with the given
number of attempts remaining.  Each attempt checks the network (the online
oracle), performs a fresh fetchLeaderboard, and renders the result (the
renderOk oracle is the renderRanking return value); any failure on the last
attempt renders a typed error placeholder and returns without throwing. -/
def loadLoop (online renderOk : Bool) : Nat → FetchWorld → RenderedView × FetchWorld
  | 0, w => (.nothing, w)
  | n + 1, w =>
      if online = false then
        if n = 0 then
          (.errorPlaceholder
            (handleApiError "Network offline - no internet connection detected"), w)
        else loadLoop online renderOk n w
      else
        match fetchLeaderboard w with
        | (.success players, w1) =>
            if renderOk then (.content players, w1)
            else if n = 0 then
              (.errorPlaceholder (handleApiError "Failed to render ranking display"), w1)
            else loadLoop online renderOk n w1
        | (.failure m, w1) =>
            if n = 0 then (.errorPlaceholder (handleApiError m), w1)
            else loadLoop online renderOk n w1

/-- app.js loadRankingView (lines 569-633): the activation of a data-backed
view, with maxLoadAttempts = 3. -/
def loadRankingView (online renderOk : Bool) (w : FetchWorld) : RenderedView × FetchWorld :=
  loadLoop online renderOk 3 w

/-- k successive activations of the same data-backed view, threading the
network world; each activation starts from scratch, holding no state from
the previous one. -/
def activateTimes (online renderOk : Bool) : Nat → FetchWorld → FetchWorld
  | 0, w => w
  | k + 1, w => activateTimes online renderOk k (loadRankingView online renderOk w).2

namespace RankingRenderer

/-- ranking-renderer.js sanitizeScore (lines 184-190): only finite numbers
survive, clamped into [0, MAX_SAFE_INTEGER]; everything else becomes 0. -/
def sanitizeScore (v : JSVal) : ℚ :=
  match v with
  | .num (.fin q) => max 0 (min q maxSafeInteger)
  | _ => 0

/-- ranking-renderer.js sanitizeName (lines 170-182): identical chain of
filters to data-fetcher.js sanitizeName. -/
def sanitizeName (v : JSVal) : String := DataFetcher.sanitizeName v

/-- ranking-renderer.js sanitizePlayerId (lines 158-168): unlike the
fetcher version, non-string identifiers always get the fresh fallback. -/
def sanitizePlayerId (v : JSVal) : String :=
  match v with
  | .str s =>
      if s = "" then freshPlayerId
      else
        let sanitized := String.mk (s.toList.filter idKeepChar |>.take 50)
        if sanitized = "" then freshPlayerId else sanitized
  | _ => freshPlayerId

/-- A sanitized entry produced by validateAndSanitizePlayers: position is
carried through as the raw JS value of position or-or 0. -/
structure RPlayer where
  playerId : String
  score : ℚ
  name : String
  position : JSVal
  deriving DecidableEq, Repr

/-- The name alias chain of validateAndSanitizePlayers (lines 136-139):
after label it falls back to player.player, then to the already extracted
identifier chain value, then to the literal "Player". -/
def rNameChain (p : Player) : JSVal :=
  jsOr p.name (jsOr p.playerName (jsOr p.username (jsOr p.displayName
    (jsOr p.user_name (jsOr p.principalName (jsOr p.principal_name
    (jsOr p.title (jsOr p.label (jsOr p.player
    (jsOr (idChain p) (JSVal.str "Player")))))))))))

/-- ranking-renderer.js validateAndSanitizePlayers (lines 100-155): filter
by the same required-field check as data-fetcher.js isValidPlayer (the
validation chains are textually identical), sanitize each kept entry, then
apply the final post-sanitization filter (non-empty id, numeric score at
least 0, non-empty name). -/
def validateAndSanitizePlayers (playerData : List Player) : List RPlayer :=
  ((playerData.filter DataFetcher.isValidPlayer).map (fun p =>
      { playerId := sanitizePlayerId (idChain p),
        score := sanitizeScore (jsOr (scoreChain p) (JSVal.num (.fin 0))),
        name := sanitizeName (rNameChain p),
        position := jsOr p.position (JSVal.num (.fin 0)) })).filter
    (fun q => decide (q.playerId ≠ "") && decide (0 ≤ q.score) && decide (q.name ≠ ""))

/-- What renderRanking leaves in the container. -/
inductive RenderOutcome where
  | noContainer
  | errorState (info : ErrorInfo)
  | emptyState
  | spaceships (players : List RPlayer)
  deriving DecidableEq, Repr

/-- ranking-renderer.js renderRanking (lines 25-97): missing container
fails; an errorInfo renders the error state; null, non-array or empty data
renders the explicit empty state, as does data whose entries are all
removed by validation; otherwise the validated players are sorted by score
descending, limited to maxSpaceships, and rendered.  playerData = none
models null or any non-array argument; the catch branch around spaceship
rendering cannot fire because no modelled step throws.  The pair is the
rendered container content and the boolean return value. -/
def renderRanking (playerData : Option (List Player)) (containerExists : Bool)
    (errorInfo : Option ErrorInfo) (maxSpaceships : Nat) : RenderOutcome × Bool :=
  if containerExists = false then (.noContainer, false)
  else
    match errorInfo with
    | some info => (.errorState info, false)
    | none =>
        match playerData with
        | none => (.emptyState, false)
        | some data =>
            if data.length = 0 then (.emptyState, false)
            else
              let validatedPlayers := validateAndSanitizePlayers data
              if validatedPlayers.length = 0 then (.emptyState, false)
              else
                let sortedPlayers := sortScoreDesc (fun q => q.score) validatedPlayers
                let maxPlayers := min sortedPlayers.length maxSpaceships
                (.spaceships (sortedPlayers.take maxPlayers), true)

end RankingRenderer

namespace CycleManager

theorem restartTimer_currentIndex (s : CMState) :
    (restartTimer s).currentIndex = s.currentIndex := by
  unfold restartTimer; split <;> rfl

theorem restartTimer_views (s : CMState) :
    (restartTimer s).views = s.views := by
  unfold restartTimer; split <;> rfl

theorem restartTimer_isRunning (s : CMState) :
    (restartTimer s).isRunning = s.isRunning := by
  unfold restartTimer; split <;> rfl

theorem restartTimer_isPaused (s : CMState) :
    (restartTimer s).isPaused = s.isPaused := by
  unfold restartTimer; split <;> rfl

theorem onViewReady_currentIndex (s : CMState) :
    (onViewReady s).currentIndex = s.currentIndex := by
  unfold onViewReady
  dsimp only
  split
  · rw [restartTimer_currentIndex]
  · rfl

theorem onViewReady_views (s : CMState) :
    (onViewReady s).views = s.views := by
  unfold onViewReady
  dsimp only
  split
  · rw [restartTimer_views]
  · rfl

theorem onViewReady_isRunning (s : CMState) :
    (onViewReady s).isRunning = s.isRunning := by
  unfold onViewReady
  dsimp only
  split
  · rw [restartTimer_isRunning]
  · rfl

theorem onViewReady_isPaused (s : CMState) :
    (onViewReady s).isPaused = false := by
  unfold onViewReady
  dsimp only
  split
  · rw [restartTimer_isPaused]
  · rename_i h
    simpa using h

theorem pauseForViewLoad_currentIndex (s : CMState) (v : View) :
    (pauseForViewLoad s v).currentIndex = s.currentIndex := by
  unfold pauseForViewLoad; split <;> rfl

theorem pauseForViewLoad_views (s : CMState) (v : View) :
    (pauseForViewLoad s v).views = s.views := by
  unfold pauseForViewLoad; split <;> rfl

theorem pauseForViewLoad_isRunning (s : CMState) (v : View) :
    (pauseForViewLoad s v).isRunning = s.isRunning := by
  unfold pauseForViewLoad; split <;> rfl

theorem nextView_currentIndex (s : CMState) (cb : CbOutcome)
    (hrun : s.isRunning = true) (hp : s.isPaused = false) :
    (nextView s cb).currentIndex = (s.currentIndex + 1) % s.views.length := by
  unfold nextView
  cases cb <;>
    simp [hrun, hp, onViewReady_currentIndex, pauseForViewLoad_currentIndex]

theorem nextView_views (s : CMState) (cb : CbOutcome) :
    (nextView s cb).views = s.views := by
  unfold nextView
  split
  · rfl
  · split
    · rfl
    · cases cb <;>
        simp [onViewReady_views, pauseForViewLoad_views]

theorem nextView_isRunning (s : CMState) (cb : CbOutcome) :
    (nextView s cb).isRunning = s.isRunning := by
  unfold nextView
  split
  · rfl
  · split
    · rfl
    · cases cb <;>
        simp [onViewReady_isRunning, pauseForViewLoad_isRunning]

theorem advanceAck_currentIndex (s : CMState)
    (hrun : s.isRunning = true) (hp : s.isPaused = false) :
    (advanceAck s).currentIndex = (s.currentIndex + 1) % s.views.length := by
  unfold advanceAck
  rw [onViewReady_currentIndex, nextView_currentIndex s _ hrun hp]

theorem advanceAck_views (s : CMState) : (advanceAck s).views = s.views := by
  unfold advanceAck
  rw [onViewReady_views, nextView_views]

theorem advanceAck_isRunning (s : CMState) :
    (advanceAck s).isRunning = s.isRunning := by
  unfold advanceAck
  rw [onViewReady_isRunning, nextView_isRunning]

theorem advanceAck_isPaused (s : CMState) :
    (advanceAck s).isPaused = false := onViewReady_isPaused _

end CycleManager

/-- C1 (amended): every advance performed while running and unpaused moves
the position to (position + 1) mod len(sequence); consequently, when each
advance has its pause resolved by onViewReady (the strategy ready signal or
the safety timeout) before the next call, n advances starting at position p
yield position (p + n) mod len(sequence) — in particular, advancing past
the last view wraps around to the first view. -/
theorem C1_wraparound_with_ack (s : CMState) (n : Nat)
    (hrun : s.isRunning = true) (hp : s.isPaused = false)
    (hidx : s.currentIndex < s.views.length) :
    ((CycleManager.advanceAck)^[n] s).currentIndex
      = (s.currentIndex + n) % s.views.length := by
  induction n generalizing s with
  | zero => simpa using (Nat.mod_eq_of_lt hidx).symm
  | succ n ih =>
      have hL : 0 < s.views.length := Nat.lt_of_le_of_lt (Nat.zero_le _) hidx
      rw [Function.iterate_succ_apply]
      have h1 := CycleManager.advanceAck_currentIndex s hrun hp
      have h2 := CycleManager.advanceAck_views s
      have h3 : (CycleManager.advanceAck s).isRunning = true := by
        rw [CycleManager.advanceAck_isRunning, hrun]
      have h4 := CycleManager.advanceAck_isPaused s
      have h5 : (CycleManager.advanceAck s).currentIndex
          < (CycleManager.advanceAck s).views.length := by
        rw [h1, h2]; exact Nat.mod_lt _ hL
      rw [ih (CycleManager.advanceAck s) h3 h4 h5, h1, h2, Nat.mod_add_mod]
      congr 1
      omega

/-- Witness for C1: three ranking views, four acknowledged advances from
position 0 end at position (0 + 4) mod 3 = 1. -/
theorem C1_wraparound_with_ack_witness :
    ((CycleManager.advanceAck)^[4]
      { views := [{ id := "ranking-1", type := "ranking" },
                  { id := "ranking-2", type := "ranking" },
                  { id := "ranking-3", type := "ranking" }],
        intervalMs := 20000, currentIndex := 0, intervalId := some 20000,
        isRunning := true, isPaused := false, viewReadyTimeout := none,
        maxViewLoadTime := 20000 }).currentIndex = (0 + 4) % 3 :=
  C1_wraparound_with_ack _ 4 rfl rfl (by decide)

/-- Counterexample to C1 as stated: with the sequence [ranking, looker],
starting at position 0 with the machine running and unpaused, two raw
advance() calls leave the position at 1, not (0 + 2) mod 2 = 0 — the first
advance pauses the machine for the looker view and the second is a no-op. -/
theorem C1_counterexample :
    (CycleManager.nextView (CycleManager.nextView
        { views := [{ id := "ranking-1", type := "ranking" },
                    { id := "bi", type := "looker" }],
          intervalMs := 20000, currentIndex := 0, intervalId := some 20000,
          isRunning := true, isPaused := false, viewReadyTimeout := none,
          maxViewLoadTime := 20000 }
        CycleManager.CbOutcome.ok) CycleManager.CbOutcome.ok).currentIndex = 1
    ∧ (1 : Nat) ≠ (0 + 2) % 2 := by
  decide

/-- C4: while the machine is not running or is paused, nextView is a
no-op: any number of timer firings leaves the entire state, in particular
the position, unchanged. -/
theorem C4_advance_noop (s : CMState) (cb : CycleManager.CbOutcome) (n : Nat)
    (h : s.isRunning = false ∨ s.isPaused = true) :
    (fun t => CycleManager.nextView t cb)^[n] s = s := by
  have hfix : CycleManager.nextView s cb = s := by
    unfold CycleManager.nextView
    rcases h with h | h
    · simp [h]
    · simp [h]
  induction n with
  | zero => rfl
  | succ n ih => rw [Function.iterate_succ_apply, hfix, ih]

/-- Witness for C4: a paused running machine absorbs five timer firings
without any state change. -/
theorem C4_advance_noop_witness :
    (fun t => CycleManager.nextView t CycleManager.CbOutcome.ok)^[5]
      { views := [{ id := "ranking-1", type := "ranking" },
                  { id := "bi", type := "looker" }],
        intervalMs := 20000, currentIndex := 1, intervalId := none,
        isRunning := true, isPaused := true, viewReadyTimeout := some 20000,
        maxViewLoadTime := 20000 }
    = { views := [{ id := "ranking-1", type := "ranking" },
                  { id := "bi", type := "looker" }],
        intervalMs := 20000, currentIndex := 1, intervalId := none,
        isRunning := true, isPaused := true, viewReadyTimeout := some 20000,
        maxViewLoadTime := 20000 } :=
  C4_advance_noop _ CycleManager.CbOutcome.ok 5 (Or.inr rfl)

/-- C2: a failing view-change callback is caught at the machine boundary
and never stops the cycle: from an unpaused running state whose interval
timer is armed, after nextView with any callback outcome either the
interval timer or the safety timer is armed; a synchronous throw is caught
and leaves the machine unpaused with the interval timer armed; and whenever
the activation leaves the machine paused, the safety timer is armed and the
pending onViewReady (the rejection handler or the safety timeout) unpauses
the machine and rearms the interval timer — so paused never remains
permanently true. -/
theorem C2_callback_failure_contained (s : CMState) (cb : CycleManager.CbOutcome)
    (hrun : s.isRunning = true) (hp : s.isPaused = false)
    (harm : s.intervalId.isSome = true) :
    ((CycleManager.nextView s cb).intervalId.isSome = true
      ∨ (CycleManager.nextView s cb).viewReadyTimeout.isSome = true)
    ∧ (cb = CycleManager.CbOutcome.syncThrow →
        (CycleManager.nextView s cb).isPaused = false
        ∧ (CycleManager.nextView s cb).intervalId.isSome = true)
    ∧ ((CycleManager.nextView s cb).isPaused = true →
        (CycleManager.nextView s cb).viewReadyTimeout.isSome = true
        ∧ (CycleManager.onViewReady (CycleManager.nextView s cb)).isPaused = false
        ∧ (CycleManager.onViewReady (CycleManager.nextView s cb)).intervalId.isSome
            = true) := by
  unfold CycleManager.nextView CycleManager.pauseForViewLoad
  cases cb <;>
    · simp [hrun, hp]
      split <;>
        simp [harm, CycleManager.onViewReady, CycleManager.restartTimer]

/-- Witness for C2: a rejected callback promise on the activation of the
looker view leaves the safety timer armed, and the pending onViewReady
unpauses the machine and rearms the interval timer. -/
theorem C2_callback_failure_contained_witness :
    ((CycleManager.nextView
        { views := [{ id := "ranking-1", type := "ranking" },
                    { id := "bi", type := "looker" }],
          intervalMs := 20000, currentIndex := 0, intervalId := some 20000,
          isRunning := true, isPaused := false, viewReadyTimeout := none,
          maxViewLoadTime := 20000 }
        CycleManager.CbOutcome.asyncReject).viewReadyTimeout.isSome = true)
    ∧ (CycleManager.onViewReady (CycleManager.nextView
        { views := [{ id := "ranking-1", type := "ranking" },
                    { id := "bi", type := "looker" }],
          intervalMs := 20000, currentIndex := 0, intervalId := some 20000,
          isRunning := true, isPaused := false, viewReadyTimeout := none,
          maxViewLoadTime := 20000 }
        CycleManager.CbOutcome.asyncReject)).isPaused = false := by
  have h := C2_callback_failure_contained
    { views := [{ id := "ranking-1", type := "ranking" },
                { id := "bi", type := "looker" }],
      intervalMs := 20000, currentIndex := 0, intervalId := some 20000,
      isRunning := true, isPaused := false, viewReadyTimeout := none,
      maxViewLoadTime := 20000 }
    CycleManager.CbOutcome.asyncReject rfl rfl rfl
  exact ⟨(h.2.2 (by decide)).1, (h.2.2 (by decide)).2.1⟩

/-- Preservation of the pause invariant by start. -/
theorem start_paused_inv (s : CMState)
    (ih : s.isPaused = true →
      s.isRunning = true ∧ s.viewReadyTimeout = some s.maxViewLoadTime) :
    (CycleManager.start s).isPaused = true →
      (CycleManager.start s).isRunning = true
      ∧ (CycleManager.start s).viewReadyTimeout
          = some (CycleManager.start s).maxViewLoadTime := by
  intro hp
  unfold CycleManager.start at hp ⊢
  by_cases hr : s.isRunning = true
  · rw [if_pos hr] at hp ⊢
    exact ih hp
  · rw [if_neg hr] at hp
    rw [CycleManager.restartTimer_isPaused] at hp
    simp at hp

/-- Preservation of the pause invariant by stop. -/
theorem stop_paused_inv (s : CMState)
    (ih : s.isPaused = true →
      s.isRunning = true ∧ s.viewReadyTimeout = some s.maxViewLoadTime) :
    (CycleManager.stop s).isPaused = true →
      (CycleManager.stop s).isRunning = true
      ∧ (CycleManager.stop s).viewReadyTimeout
          = some (CycleManager.stop s).maxViewLoadTime := by
  intro hp
  unfold CycleManager.stop at hp ⊢
  by_cases hr : s.isRunning = false
  · rw [if_pos hr] at hp ⊢
    exact ih hp
  · rw [if_neg hr] at hp
    simp at hp

/-- Preservation of the pause invariant by onViewReady (it always leaves
the machine unpaused). -/
theorem onViewReady_paused_inv (s : CMState) :
    (CycleManager.onViewReady s).isPaused = true →
      (CycleManager.onViewReady s).isRunning = true
      ∧ (CycleManager.onViewReady s).viewReadyTimeout
          = some (CycleManager.onViewReady s).maxViewLoadTime := by
  intro hp
  rw [CycleManager.onViewReady_isPaused] at hp
  cases hp

/-- Preservation of the pause invariant by nextView: pausing only happens
on a looker view, and that branch arms the safety timeout while running. -/
theorem nextView_paused_inv (s : CMState) (cb : CycleManager.CbOutcome)
    (ih : s.isPaused = true →
      s.isRunning = true ∧ s.viewReadyTimeout = some s.maxViewLoadTime) :
    (CycleManager.nextView s cb).isPaused = true →
      (CycleManager.nextView s cb).isRunning = true
      ∧ (CycleManager.nextView s cb).viewReadyTimeout
          = some (CycleManager.nextView s cb).maxViewLoadTime := by
  intro hp
  unfold CycleManager.nextView at hp ⊢
  by_cases hr : s.isRunning = false
  · rw [if_pos hr] at hp ⊢
    exact ih hp
  · rw [if_neg hr] at hp ⊢
    by_cases hq : s.isPaused = true
    · rw [if_pos hq] at hp ⊢
      exact ih hq
    · rw [if_neg hq] at hp ⊢
      have hr' : s.isRunning = true := by simpa using hr
      cases cb <;> dsimp only at hp ⊢
      case neg.syncThrow =>
        rw [CycleManager.onViewReady_isPaused] at hp
        cases hp
      all_goals
        unfold CycleManager.pauseForViewLoad at hp ⊢
        by_cases hl : (s.views.getD ((s.currentIndex + 1) % s.views.length)
            default).type = "looker"
      all_goals try
        · rw [if_pos hl] at hp ⊢
          exact ⟨hr', rfl⟩
      all_goals
        rw [if_neg hl] at hp
        exact absurd hp hq

/-- Invariant of the cycle machine: in every reachable state, a paused
machine is running and has its safety timeout armed for maxViewLoadTime. -/
theorem reachable_paused_invariant (s : CMState) (h : CycleManager.Reachable s) :
    s.isPaused = true →
      s.isRunning = true ∧ s.viewReadyTimeout = some s.maxViewLoadTime := by
  induction h with
  | init views intervalMs =>
      intro hp
      simp [CMState.init] at hp
  | step s e hs ih =>
      cases e with
      | start => exact start_paused_inv s ih
      | stop => exact stop_paused_inv s ih
      | next cb => exact nextView_paused_inv s cb ih
      | ready => exact onViewReady_paused_inv s
      | safetyFire =>
          dsimp only [CycleManager.applyEvent]
          by_cases hv : s.viewReadyTimeout.isSome = true
          · rw [if_pos hv]
            exact onViewReady_paused_inv s
          · rw [if_neg hv]
            exact ih

/-- C3: in every reachable paused state the safety timeout is armed, and
for the full maxViewLoadTime period, so if onViewReady is never signalled
the safety timer fires within maxViewLoadTime; its firing runs onViewReady,
which unpauses the machine and rearms the interval timer for intervalMs, so
advancement resumes.  The real-time bound of the claim is represented by
the period the safety timer is armed with. -/
theorem C3_bounded_pause (s : CMState) (h : CycleManager.Reachable s)
    (hp : s.isPaused = true) :
    s.viewReadyTimeout = some s.maxViewLoadTime
    ∧ (CycleManager.onViewReady s).isPaused = false
    ∧ (CycleManager.onViewReady s).intervalId = some s.intervalMs := by
  obtain ⟨hrun, hsafe⟩ := reachable_paused_invariant s h hp
  refine ⟨hsafe, CycleManager.onViewReady_isPaused s, ?_⟩
  unfold CycleManager.onViewReady CycleManager.restartTimer
  simp [hp, hrun]

/-- Witness for C3: starting the machine over a ranking view and a looker
view and advancing once pauses it on the looker view; that state is
reachable, its safety timer is armed for 20000 ms, and firing it resumes
the cycle with the interval timer armed for 20000 ms. -/
theorem C3_bounded_pause_witness :
    (CycleManager.applyEvent
        (CycleManager.applyEvent
          (CMState.init [{ id := "ranking-1", type := "ranking" },
                         { id := "bi", type := "looker" }] 20000)
          CycleManager.Event.start)
        (CycleManager.Event.next CycleManager.CbOutcome.ok)).viewReadyTimeout
      = some 20000
    ∧ (CycleManager.onViewReady
        (CycleManager.applyEvent
          (CycleManager.applyEvent
            (CMState.init [{ id := "ranking-1", type := "ranking" },
                           { id := "bi", type := "looker" }] 20000)
            CycleManager.Event.start)
          (CycleManager.Event.next CycleManager.CbOutcome.ok))).intervalId
      = some 20000 := by
  have h := C3_bounded_pause _
    (CycleManager.Reachable.step _ (CycleManager.Event.next CycleManager.CbOutcome.ok)
      (CycleManager.Reachable.step _ CycleManager.Event.start
        (CycleManager.Reachable.init
          [{ id := "ranking-1", type := "ranking" },
           { id := "bi", type := "looker" }] 20000)))
    (by decide)
  exact ⟨h.1, h.2.2⟩

/-- C5 (spec-modelled watchdog): while the machine is running and its
position stays equal to the last observed position, three consecutive
watchdog ticks starting from a fresh sample force recovery: the first two
ticks leave the machine untouched, and the third re-arms the interval timer
unconditionally — isPaused is bypassed and left unchanged — and resets the
consecutive-stuck counter. -/
theorem C5_watchdog_recovery (m : CMState) (w : WatchdogState)
    (hrun : m.isRunning = true)
    (hobs : w.lastObservedPosition = (m.currentIndex : Int))
    (hcnt : w.consecutiveStuckCount = 0) :
    (watchdogTick m w).1 = m
    ∧ (watchdogTick m (watchdogTick m w).2).1 = m
    ∧ (watchdogTick m (watchdogTick m (watchdogTick m w).2).2).1.intervalId
        = some m.intervalMs
    ∧ (watchdogTick m (watchdogTick m (watchdogTick m w).2).2).1.isPaused
        = m.isPaused
    ∧ (watchdogTick m (watchdogTick m (watchdogTick m w).2).2).2.consecutiveStuckCount
        = 0 := by
  have h1 : watchdogTick m w = (m, { w with consecutiveStuckCount := 1 }) := by
    unfold watchdogTick watchdogThreshold
    simp [hrun, hobs, hcnt]
  have h2 : watchdogTick m { w with consecutiveStuckCount := 1 }
      = (m, { w with consecutiveStuckCount := 2 }) := by
    unfold watchdogTick watchdogThreshold
    simp [hrun, hobs]
  have h3 : watchdogTick m { w with consecutiveStuckCount := 2 }
      = ({ m with intervalId := some m.intervalMs },
         { w with consecutiveStuckCount := 0 }) := by
    unfold watchdogTick watchdogThreshold
    simp [hrun, hobs]
  rw [h1]
  refine ⟨rfl, ?_, ?_, ?_, ?_⟩ <;> rw [h2] <;> simp [h3]

/-- Witness for C5: a machine wedged in the paused state with no timer
armed is recovered by the third watchdog tick, which arms the interval
timer while leaving isPaused untouched. -/
theorem C5_watchdog_recovery_witness :
    (watchdogTick
      { views := [{ id := "ranking-1", type := "ranking" },
                  { id := "bi", type := "looker" }],
        intervalMs := 20000, currentIndex := 1, intervalId := none,
        isRunning := true, isPaused := true, viewReadyTimeout := none,
        maxViewLoadTime := 20000 }
      (watchdogTick
        { views := [{ id := "ranking-1", type := "ranking" },
                    { id := "bi", type := "looker" }],
          intervalMs := 20000, currentIndex := 1, intervalId := none,
          isRunning := true, isPaused := true, viewReadyTimeout := none,
          maxViewLoadTime := 20000 }
        (watchdogTick
          { views := [{ id := "ranking-1", type := "ranking" },
                      { id := "bi", type := "looker" }],
            intervalMs := 20000, currentIndex := 1, intervalId := none,
            isRunning := true, isPaused := true, viewReadyTimeout := none,
            maxViewLoadTime := 20000 }
          { lastObservedPosition := 1, consecutiveStuckCount := 0 }).2).2).1.intervalId
      = some 20000 := by
  have h := C5_watchdog_recovery
    { views := [{ id := "ranking-1", type := "ranking" },
                { id := "bi", type := "looker" }],
      intervalMs := 20000, currentIndex := 1, intervalId := none,
      isRunning := true, isPaused := true, viewReadyTimeout := none,
      maxViewLoadTime := 20000 }
    { lastObservedPosition := 1, consecutiveStuckCount := 0 }
    rfl rfl rfl
  exact h.2.2.1

/-- C6: the cycle machine start is a no-op when already running; from a
stopped machine the app start immediately activates the view at the current
position (before waiting any interval) and leaves the machine running,
unpaused, with the interval timer armed for intervalMs and the position
unchanged. -/
theorem C6_start (s : CMState) :
    (s.isRunning = true → CycleManager.start s = s)
    ∧ (s.isRunning = false →
        (CycleManager.start s).isRunning = true
        ∧ (CycleManager.start s).isPaused = false
        ∧ (CycleManager.start s).intervalId = some s.intervalMs
        ∧ (CycleManager.start s).currentIndex = s.currentIndex
        ∧ (appStart true s).1 = some (s.views.getD s.currentIndex default)
        ∧ (appStart true s).2 = CycleManager.start s) := by
  constructor
  · intro h
    unfold CycleManager.start
    rw [if_pos h]
  · intro h
    unfold appStart
    simp [h, CycleManager.start, CycleManager.restartTimer]

/-- Witness for C6: starting an already running machine changes nothing,
and starting a stopped machine arms the interval timer for 20000 ms and
activates the ranking view at position 0. -/
theorem C6_start_witness :
    CycleManager.start
        { views := [{ id := "ranking-1", type := "ranking" }],
          intervalMs := 20000, currentIndex := 0, intervalId := some 20000,
          isRunning := true, isPaused := false, viewReadyTimeout := none,
          maxViewLoadTime := 20000 }
      = { views := [{ id := "ranking-1", type := "ranking" }],
          intervalMs := 20000, currentIndex := 0, intervalId := some 20000,
          isRunning := true, isPaused := false, viewReadyTimeout := none,
          maxViewLoadTime := 20000 }
    ∧ (CycleManager.start
        { views := [{ id := "ranking-1", type := "ranking" }],
          intervalMs := 20000, currentIndex := 0, intervalId := none,
          isRunning := false, isPaused := false, viewReadyTimeout := none,
          maxViewLoadTime := 20000 }).intervalId = some 20000
    ∧ (appStart true
        { views := [{ id := "ranking-1", type := "ranking" }],
          intervalMs := 20000, currentIndex := 0, intervalId := none,
          isRunning := false, isPaused := false, viewReadyTimeout := none,
          maxViewLoadTime := 20000 }).1
      = some { id := "ranking-1", type := "ranking" } :=
  ⟨(C6_start
      { views := [{ id := "ranking-1", type := "ranking" }],
        intervalMs := 20000, currentIndex := 0, intervalId := some 20000,
        isRunning := true, isPaused := false, viewReadyTimeout := none,
        maxViewLoadTime := 20000 }).1 rfl,
   ((C6_start
      { views := [{ id := "ranking-1", type := "ranking" }],
        intervalMs := 20000, currentIndex := 0, intervalId := none,
        isRunning := false, isPaused := false, viewReadyTimeout := none,
        maxViewLoadTime := 20000 }).2 rfl).2.2.1,
   ((C6_start
      { views := [{ id := "ranking-1", type := "ranking" }],
        intervalMs := 20000, currentIndex := 0, intervalId := none,
        isRunning := false, isPaused := false, viewReadyTimeout := none,
        maxViewLoadTime := 20000 }).2 rfl).2.2.2.2.1⟩

/-- C7 (amended): the error classifier is a deterministic total function
from the raw failure message to a type, message, recoverable flag and
retryAfter record, in which the not-found and auth kinds are exactly the
ones marked non-recoverable, and any unrecognized failure classifies as
unknown with recoverable = true and the conservative default retryAfter of
5000 ms. -/
theorem C7_classifier (message : String) :
    ((handleApiError message).recoverable = false ↔
      (handleApiError message).type = "not_found"
      ∨ (handleApiError message).type = "auth")
    ∧ (recognized message = false →
        handleApiError message
          = { type := "unknown", message := "An unexpected error occurred.",
              recoverable := true, retryAfter := some 5000 }) := by
  constructor
  · unfold handleApiError
    split_ifs <;> decide
  · intro h
    unfold recognized at h
    simp only [Bool.or_eq_false_iff] at h
    obtain ⟨⟨⟨⟨⟨⟨⟨⟨⟨⟨⟨⟨⟨⟨h1, h2⟩, h3⟩, h4⟩, h5⟩, h6⟩, h7⟩, h8⟩, h9⟩,
      h10⟩, h11⟩, h12⟩, h13⟩, h14⟩, h15⟩ := h
    unfold handleApiError
    simp [h1, h2, h3, h4, h5, h6, h7, h8, h9, h10, h11, h12, h13, h14, h15]

/-- Witness for C7: a message matching no branch of the chain classifies
as unknown, recoverable, with the 5000 ms default delay. -/
theorem C7_classifier_witness :
    handleApiError "boom"
      = { type := "unknown", message := "An unexpected error occurred.",
          recoverable := true, retryAfter := some 5000 } :=
  (C7_classifier "boom").2 (by decide)

/-- Counterexample to C7 as stated: the auth condition (HTTP 401/403) is
also marked non-recoverable, so a not-found condition is not the only
non-recoverable kind. -/
theorem C7_counterexample :
    (handleApiError "HTTP 401: Unauthorized").recoverable = false
    ∧ (handleApiError "HTTP 401: Unauthorized").type ≠ "not_found" := by
  decide

theorem length_insertScoreDesc (score : α → ℚ) (x : α) (l : List α) :
    (insertScoreDesc score x l).length = l.length + 1 := by
  induction l with
  | nil => rfl
  | cons y ys ih =>
      unfold insertScoreDesc
      split
      · rfl
      · simp [ih]

theorem length_sortScoreDesc (score : α → ℚ) (l : List α) :
    (sortScoreDesc score l).length = l.length := by
  induction l with
  | nil => rfl
  | cons x xs ih =>
      unfold sortScoreDesc
      rw [length_insertScoreDesc, ih]
      rfl

theorem mem_insertScoreDesc (score : α → ℚ) (x a : α) (l : List α)
    (h : a ∈ insertScoreDesc score x l) : a = x ∨ a ∈ l := by
  induction l with
  | nil =>
      unfold insertScoreDesc at h
      simpa using h
  | cons y ys ih =>
      unfold insertScoreDesc at h
      split at h
      · simpa using h
      · rcases List.mem_cons.mp h with h | h
        · exact Or.inr (h ▸ List.mem_cons_self y ys)
        · rcases ih h with h | h
          · exact Or.inl h
          · exact Or.inr (List.mem_cons_of_mem y h)

theorem mem_sortScoreDesc (score : α → ℚ) (a : α) (l : List α)
    (h : a ∈ sortScoreDesc score l) : a ∈ l := by
  induction l with
  | nil =>
      unfold sortScoreDesc at h
      exact h
  | cons x xs ih =>
      unfold sortScoreDesc at h
      rcases mem_insertScoreDesc score x a _ h with h | h
      · exact h ▸ List.mem_cons_self x xs
      · exact List.mem_cons_of_mem x (ih h)

theorem length_assignPositions (i : Nat) (l : List ProcessedPlayer) :
    (assignPositions i l).length = l.length := by
  induction l generalizing i with
  | nil => rfl
  | cons p rest ih => simp [assignPositions, ih]

theorem mem_assignPositions (i : Nat) (l : List ProcessedPlayer)
    (q : ProcessedPlayer) (h : q ∈ assignPositions i l) :
    ∃ p ∈ l, q.playerId = p.playerId ∧ q.score = p.score ∧ q.name = p.name := by
  induction l generalizing i with
  | nil => cases h
  | cons p rest ih =>
      unfold assignPositions at h
      rcases List.mem_cons.mp h with h | h
      · subst h
        exact ⟨p, List.mem_cons_self p rest, rfl, rfl, rfl⟩
      · obtain ⟨r, hr, hq⟩ := ih (i + 1) h
        exact ⟨r, List.mem_cons_of_mem p hr, hq⟩

theorem sanitizeScore_nonneg (v : JSVal) : 0 ≤ DataFetcher.sanitizeScore v := by
  unfold DataFetcher.sanitizeScore
  split <;> try split
  all_goals first
    | exact le_refl 0
    | exact le_max_left 0 _

theorem sanitizeScore_le_max (v : JSVal) :
    DataFetcher.sanitizeScore v ≤ maxSafeInteger := by
  have hM : (0 : ℚ) ≤ maxSafeInteger := by norm_num [maxSafeInteger]
  unfold DataFetcher.sanitizeScore
  split <;> try split
  all_goals first
    | exact hM
    | exact max_le hM (min_le_right _ _)

/-- C8 (amended): normalization of a successful response drops exactly the
entries with no recoverable identifier/score pair and, in addition, the
valid entries outside the top 10 by score: the output length is
min(validCount, 10), and every output entry is the repaired image (field
extraction over the accepted aliases, score clamping, display-text
sanitization) of some valid input entry, its score clamped into
[0, MAX_SAFE_INTEGER]. -/
theorem C8_normalization (resp : ApiResponse) (players : List Player)
    (h : responsePlayers resp = some players) :
    (processPlayerData resp).length
      = min (players.filter DataFetcher.isValidPlayer).length 10
    ∧ ∀ q ∈ processPlayerData resp,
        (∃ p ∈ players, DataFetcher.isValidPlayer p = true
          ∧ q.playerId = DataFetcher.extractPlayerId p
          ∧ q.score = DataFetcher.extractScore p
          ∧ q.name = DataFetcher.extractPlayerName p)
        ∧ 0 ≤ q.score ∧ q.score ≤ maxSafeInteger := by
  have hrw : processPlayerData resp
      = assignPositions 0
          ((sortScoreDesc (fun q => q.score)
            ((players.filter DataFetcher.isValidPlayer).map (fun p =>
              { playerId := DataFetcher.extractPlayerId p,
                score := DataFetcher.extractScore p,
                name := DataFetcher.extractPlayerName p,
                position := 0 }))).take 10) := by
    unfold processPlayerData
    rw [h]
  constructor
  · rw [hrw, length_assignPositions, List.length_take, length_sortScoreDesc,
        List.length_map]
    omega
  · intro q hq
    rw [hrw] at hq
    obtain ⟨c, hc, hid, hscore, hname⟩ := mem_assignPositions 0 _ q hq
    have hc1 := List.take_subset 10 _ hc
    have hc2 := mem_sortScoreDesc (fun q => q.score) c _ hc1
    obtain ⟨p, hp, hpc⟩ := List.mem_map.mp hc2
    obtain ⟨hpmem, hpvalid⟩ := List.mem_filter.mp hp
    subst hpc
    refine ⟨⟨p, hpmem, hpvalid, hid, hscore, hname⟩, ?_, ?_⟩
    · rw [hscore]
      exact sanitizeScore_nonneg _
    · rw [hscore]
      exact sanitizeScore_le_max _

/-- Witness for C8: a single valid entry (identifier alias _id, score alias
total) is kept, repaired to id "p7", score 5, fallback name "Player". -/
theorem C8_normalization_witness :
    (processPlayerData (ApiResponse.direct
        [{ Player.empty with _id := JSVal.str "p7",
                             total := JSVal.num (JSNum.fin 5) }])).length
      = min ([{ Player.empty with _id := JSVal.str "p7",
                                  total := JSVal.num (JSNum.fin 5) }].filter
              DataFetcher.isValidPlayer).length 10
    ∧ ((∃ p ∈ [{ Player.empty with _id := JSVal.str "p7",
                                   total := JSVal.num (JSNum.fin 5) }],
          DataFetcher.isValidPlayer p = true
          ∧ ({ playerId := "p7", score := 5, name := "Player", position := 1 }
              : ProcessedPlayer).playerId = DataFetcher.extractPlayerId p
          ∧ ({ playerId := "p7", score := 5, name := "Player", position := 1 }
              : ProcessedPlayer).score = DataFetcher.extractScore p
          ∧ ({ playerId := "p7", score := 5, name := "Player", position := 1 }
              : ProcessedPlayer).name = DataFetcher.extractPlayerName p)
        ∧ 0 ≤ ({ playerId := "p7", score := 5, name := "Player", position := 1 }
              : ProcessedPlayer).score
        ∧ ({ playerId := "p7", score := 5, name := "Player", position := 1 }
              : ProcessedPlayer).score ≤ maxSafeInteger) := by
  have h := C8_normalization
    (ApiResponse.direct [{ Player.empty with _id := JSVal.str "p7",
                                             total := JSVal.num (JSNum.fin 5) }])
    [{ Player.empty with _id := JSVal.str "p7",
                         total := JSVal.num (JSNum.fin 5) }] rfl
  exact ⟨h.1, h.2 _ (by decide)⟩

/-- Counterexample to C8 as stated: eleven entries all exposing a valid
identifier/score pair, yet normalization keeps only ten of them — the
lowest-scoring valid entry is dropped by the top-10 truncation, not for
lacking an identifier/score pair. -/
theorem C8_counterexample :
    (([{ Player.empty with _id := JSVal.str "p", total := JSVal.num (JSNum.fin 1) },
       { Player.empty with _id := JSVal.str "p", total := JSVal.num (JSNum.fin 2) },
       { Player.empty with _id := JSVal.str "p", total := JSVal.num (JSNum.fin 3) },
       { Player.empty with _id := JSVal.str "p", total := JSVal.num (JSNum.fin 4) },
       { Player.empty with _id := JSVal.str "p", total := JSVal.num (JSNum.fin 5) },
       { Player.empty with _id := JSVal.str "p", total := JSVal.num (JSNum.fin 6) },
       { Player.empty with _id := JSVal.str "p", total := JSVal.num (JSNum.fin 7) },
       { Player.empty with _id := JSVal.str "p", total := JSVal.num (JSNum.fin 8) },
       { Player.empty with _id := JSVal.str "p", total := JSVal.num (JSNum.fin 9) },
       { Player.empty with _id := JSVal.str "p", total := JSVal.num (JSNum.fin 10) },
       { Player.empty with _id := JSVal.str "p", total := JSVal.num (JSNum.fin 11) }]).filter
        DataFetcher.isValidPlayer).length = 11
    ∧ (processPlayerData (ApiResponse.direct
      [{ Player.empty with _id := JSVal.str "p", total := JSVal.num (JSNum.fin 1) },
       { Player.empty with _id := JSVal.str "p", total := JSVal.num (JSNum.fin 2) },
       { Player.empty with _id := JSVal.str "p", total := JSVal.num (JSNum.fin 3) },
       { Player.empty with _id := JSVal.str "p", total := JSVal.num (JSNum.fin 4) },
       { Player.empty with _id := JSVal.str "p", total := JSVal.num (JSNum.fin 5) },
       { Player.empty with _id := JSVal.str "p", total := JSVal.num (JSNum.fin 6) },
       { Player.empty with _id := JSVal.str "p", total := JSVal.num (JSNum.fin 7) },
       { Player.empty with _id := JSVal.str "p", total := JSVal.num (JSNum.fin 8) },
       { Player.empty with _id := JSVal.str "p", total := JSVal.num (JSNum.fin 9) },
       { Player.empty with _id := JSVal.str "p", total := JSVal.num (JSNum.fin 10) },
       { Player.empty with _id := JSVal.str "p", total := JSVal.num (JSNum.fin 11) }])).length
      = 10 := by
  decide

theorem loadRankingView_ok (w : FetchWorld) (resp : ApiResponse)
    (rest : List AttemptOutcome)
    (h : w.outcomes = AttemptOutcome.ok resp :: rest) :
    loadRankingView true true w
      = (RenderedView.content (processPlayerData resp),
         { outcomes := rest, apiCalls := w.apiCalls + 1,
           fetchCalls := w.fetchCalls + 1 }) := by
  cases w
  subst h
  rfl

theorem activateTimes_ok_counts (k : Nat) (w : FetchWorld)
    (hok : ∀ o ∈ w.outcomes, ∃ resp, o = AttemptOutcome.ok resp)
    (hk : k ≤ w.outcomes.length) :
    (activateTimes true true k w).apiCalls = w.apiCalls + k
    ∧ (activateTimes true true k w).fetchCalls = w.fetchCalls + k := by
  induction k generalizing w with
  | zero => constructor <;> simp [activateTimes]
  | succ k ih =>
      cases hw : w.outcomes with
      | nil =>
          rw [hw] at hk
          simp at hk
      | cons o rest =>
          obtain ⟨resp, hresp⟩ := hok o (by rw [hw]; exact List.mem_cons_self o rest)
          subst hresp
          rw [show activateTimes true true (k + 1) w
              = activateTimes true true k (loadRankingView true true w).2 from rfl]
          rw [loadRankingView_ok w resp rest hw]
          dsimp only
          obtain ⟨h1, h2⟩ := ih
            { outcomes := rest, apiCalls := w.apiCalls + 1,
              fetchCalls := w.fetchCalls + 1 }
            (fun o ho => hok o (by rw [hw]; exact List.mem_cons_of_mem _ ho))
            (by rw [hw] at hk; simpa using Nat.le_of_succ_le_succ hk)
          dsimp only at h1 h2
          refine ⟨?_, ?_⟩
          · rw [h1]
            omega
          · rw [h2]
            omega

/-- C9 (amended): every activation of a data-backed view starts a fresh
fetch and reuses no prior result: what an activation renders is exactly the
processing of the response its own fetch consumed, and, when every network
attempt succeeds, k activations issue exactly k fetch calls (k callHistory
records and k network requests).  As stated the claim over-counts: a failed
attempt makes the same activation issue a further fetch call. -/
theorem C9_fresh_fetch (k : Nat) (w : FetchWorld)
    (hok : ∀ o ∈ w.outcomes, ∃ resp, o = AttemptOutcome.ok resp)
    (hk : k ≤ w.outcomes.length) :
    (activateTimes true true k w).apiCalls = w.apiCalls + k
    ∧ (activateTimes true true k w).fetchCalls = w.fetchCalls + k
    ∧ ∀ resp rest, w.outcomes = AttemptOutcome.ok resp :: rest →
        (loadRankingView true true w).1
          = RenderedView.content (processPlayerData resp) := by
  refine ⟨(activateTimes_ok_counts k w hok hk).1,
          (activateTimes_ok_counts k w hok hk).2, ?_⟩
  intro resp rest h
  rw [loadRankingView_ok w resp rest h]

/-- Witness for C9: two activations over an all-success network issue
exactly two fetch calls, and the first activation renders the processing of
the response its own fetch consumed. -/
theorem C9_fresh_fetch_witness :
    (activateTimes true true 2
      { outcomes := [AttemptOutcome.ok (ApiResponse.direct []),
                     AttemptOutcome.ok (ApiResponse.direct [])],
        apiCalls := 0, fetchCalls := 0 }).apiCalls = 0 + 2
    ∧ (activateTimes true true 2
      { outcomes := [AttemptOutcome.ok (ApiResponse.direct []),
                     AttemptOutcome.ok (ApiResponse.direct [])],
        apiCalls := 0, fetchCalls := 0 }).fetchCalls = 0 + 2
    ∧ (loadRankingView true true
      { outcomes := [AttemptOutcome.ok (ApiResponse.direct []),
                     AttemptOutcome.ok (ApiResponse.direct [])],
        apiCalls := 0, fetchCalls := 0 }).1
      = RenderedView.content (processPlayerData (ApiResponse.direct [])) := by
  have h := C9_fresh_fetch 2
    { outcomes := [AttemptOutcome.ok (ApiResponse.direct []),
                   AttemptOutcome.ok (ApiResponse.direct [])],
      apiCalls := 0, fetchCalls := 0 }
    (by
      intro o ho
      rcases List.mem_cons.mp ho with h | h
      · exact ⟨ApiResponse.direct [], h⟩
      · rcases List.mem_cons.mp h with h | h
        · exact ⟨ApiResponse.direct [], h⟩
        · cases h)
    (by decide)
  exact ⟨h.1, h.2.1,
         h.2.2 (ApiResponse.direct []) [AttemptOutcome.ok (ApiResponse.direct [])] rfl⟩

/-- Counterexample to C9 as stated: a single activation whose first network
attempt fails with a server error and whose retry succeeds issues 2 fetch
calls to the remote data surface, not exactly 1. -/
theorem C9_counterexample :
    (loadRankingView true true
      { outcomes := [AttemptOutcome.err "HTTP 500: Internal Server Error",
                     AttemptOutcome.ok (ApiResponse.direct [])],
        apiCalls := 0, fetchCalls := 0 }).2.apiCalls = 2
    ∧ (2 : Nat) ≠ 1 := by
  decide

/-- C10: with the container present and no error info, a null result set,
an empty result set, or a result set whose entries are all removed by the
valid-entry filter makes renderRanking render the explicit empty-state
placeholder — never a blank container. -/
theorem C10_empty_state (playerData : Option (List Player)) (maxSpaceships : Nat)
    (h : playerData = none ∨ playerData = some []
      ∨ ∃ d, playerData = some d
          ∧ RankingRenderer.validateAndSanitizePlayers d = []) :
    (RankingRenderer.renderRanking playerData true none maxSpaceships).1
      = RankingRenderer.RenderOutcome.emptyState := by
  rcases h with h | h | ⟨d, hd, hv⟩
  · subst h
    rfl
  · subst h
    rfl
  · subst hd
    unfold RankingRenderer.renderRanking
    by_cases hlen : d.length = 0
    · simp [hlen]
    · simp [hlen, hv]

/-- Witness for C10: a payload with a single entry lacking any identifier
and score renders the empty-state placeholder. -/
theorem C10_empty_state_witness :
    (RankingRenderer.renderRanking (some [Player.empty]) true none 12).1
      = RankingRenderer.RenderOutcome.emptyState :=
  C10_empty_state (some [Player.empty]) 12
    (Or.inr (Or.inr ⟨[Player.empty], rfl, by decide⟩))
